import Mathlib

/-!
Verification of the QualiAgua compliance-evaluation and aggregation logic
(src/app.py) against its natural-language specification.

Modelling conventions:
- A pandas row becomes the structure `Record`; a missing value (NaN/None)
  becomes `none`.  Numeric cells are rationals, which represent the decimal
  values the code compares exactly.
- A Python dict becomes an association list (`Dict` below) whose entries are
  kept in insertion order; `List.lookup` models dict access.
- A pandas equality comparison (`df[col] == x`) is `optEq`: NaN compares
  unequal to everything, including NaN itself.
- Python string helpers (`strip`, `upper`, `lower`, single-character
  `replace`) are re-implemented over the character list so that all
  definitions evaluate inside the kernel.
-/

/-- Value stored in a Python dict produced by the aggregators:
a string, a rational number, a natural count, or None. -/
inductive V where
  | s (x : String)
  | q (x : ℚ)
  | n (x : Nat)
  | null
deriving DecidableEq

/-- A Python dict, as an insertion-ordered association list. -/
abbrev Dict := List (String × V)

/-- Dict access with default, modelling Python dict.get(k, dflt). -/
def dget (d : Dict) (k : String) (dflt : V) : V :=
  (List.lookup k d).getD dflt

/-- One water-quality sample row of the dataframe (src/app.py expected
columns, line 59).  A NaN/None cell is `none`. -/
structure Record where
  id : Option String := none
  bairro : Option String := none
  ponto_de_coleta : Option String := none
  data_da_coleta : Option String := none
  parametro : Option String := none
  resultado : Option String := none
  resultado_numerico : Option ℚ := none
  unidade_de_medida : Option String := none
  latitude : Option ℚ := none
  longitude : Option ℚ := none
  ano : Option ℚ := none
  mes : Option ℚ := none
deriving DecidableEq

/-- pandas elementwise equality: NaN (`none`) is equal to nothing,
not even to NaN. -/
def optEq {α : Type} [BEq α] (a b : Option α) : Bool :=
  match a, b with
  | some x, some y => x == y
  | _, _ => false

/-- Model of Python str.strip(): drop leading and trailing whitespace. -/
def strTrim (s : String) : String :=
  String.mk (((s.toList.dropWhile Char.isWhitespace).reverse.dropWhile
    Char.isWhitespace).reverse)

/-- Model of Python str.upper() for the characters that occur here. -/
def strUpper (s : String) : String :=
  String.mk (s.toList.map Char.toUpper)

/-- Model of Python str.replace(",", ".") used at src/app.py line 101. -/
def substituirVirgula (s : String) : String :=
  String.mk (s.toList.map (fun c => if c == ',' then '.' else c))

/-- Numeric value of a list of decimal digits (most significant first). -/
def digitosVal (l : List Char) : Nat :=
  l.foldl (fun acc c => acc * 10 + (c.toNat - 48)) 0

/-- Model of Python float(s) on decimal strings: optional surrounding
whitespace, optional sign, digits with an optional fractional part
("5", "5.", ".5", "1.5" all parse; "" , "." , "1.2.3" do not).
Exponents, underscores, inf and nan are not modelled; none of the code
paths under verification depend on them.  The value ip.fp with k fraction
digits is the exact rational (ip * 10^k + fp) / 10^k, built with mkRat so
that it evaluates inside the kernel. -/
def parseFloat? (s : String) : Option ℚ :=
  let t := (strTrim s).toList
  let signed : Int × List Char :=
    match t with
    | c :: r => if c == '-' then (-1, r) else if c == '+' then (1, r) else (1, t)
    | [] => (1, t)
  let sgn := signed.1
  let ds := signed.2
  let ip := ds.takeWhile (fun c => !(c == '.'))
  let resto := ds.dropWhile (fun c => !(c == '.'))
  if ip.all Char.isDigit then
    match resto with
    | [] => if ip.isEmpty then none else some (mkRat (sgn * (digitosVal ip : Int)) 1)
    | _ :: fp =>
      if fp.all Char.isDigit && (!ip.isEmpty || !fp.isEmpty) then
        some (mkRat (sgn * ((digitosVal ip * 10 ^ fp.length + digitosVal fp : Nat) : Int))
          (10 ^ fp.length))
      else none
  else none

/-- One reference rule of the Portaria GM/MS 888/2021 table
(src/app.py lines 26-32). -/
inductive Regra where
  | ausencia (valor : String)
  | maximo (valor : ℚ)
  | intervalo (vmin vmax : ℚ)
deriving DecidableEq

/-- The fixed reference table VALORES_REFERENCIA (src/app.py lines 26-32).
The decimal literals 0.2 and 1.5 of the source are written as the exact
rationals mkRat 2 10 and mkRat 15 10 so that they evaluate inside the
kernel. -/
def VALORES_REFERENCIA : List (String × Regra) :=
  [("Escherichia coli", Regra.ausencia "AUSENTE"),
   ("Coliformes totais", Regra.ausencia "AUSENTE"),
   ("Turbidez (uT)", Regra.maximo 5),
   ("Cloro residual livre (mg/L)", Regra.intervalo (mkRat 2 10) 5),
   ("Fluoreto (mg/L)", Regra.maximo (mkRat 15 10))]

/-- Reference-table lookup by parameter name. -/
def refLookup (p : String) : Option Regra :=
  List.lookup p VALORES_REFERENCIA

/-- The rule governing a record: none when the parameter is missing or not a
key of the table (src/app.py line 87). -/
def ruleOf (r : Record) : Option Regra :=
  match r.parametro with
  | none => none
  | some p => refLookup p

/-- Python str(resultado).strip().upper() with NaN mapped to the empty
string (src/app.py line 93). -/
def strForma (o : Option String) : String :=
  match o with
  | some s => strUpper (strTrim s)
  | none => ""

/-- Numeric resolution for the maximo/intervalo rules (src/app.py lines
96-105): prefer resultado_numerico; when it is NaN, parse resultado as a
float after the comma-to-dot replacement; a parse failure yields none
(the code returns False there). -/
def resolveNumerico (r : Record) : Option ℚ :=
  match r.resultado_numerico with
  | some v => some v
  | none =>
    match r.resultado with
    | none => none
    | some s => parseFloat? (substituirVirgula s)

/-- verificar_conformidade (src/app.py lines 83-119): per-record compliance
against the reference table.  The trailing float() conversion of an already
numeric resultado_numerico (line 108) is the identity here. -/
def verificar_conformidade (r : Record) : Bool :=
  match r.parametro with
  | none => false
  | some parametro =>
    match refLookup parametro with
    | none => false
    | some (Regra.ausencia valor) => strForma r.resultado == valor
    | some (Regra.maximo valor) =>
      match resolveNumerico r with
      | none => false
      | some v => decide (v ≤ valor)
    | some (Regra.intervalo vmin vmax) =>
      match resolveNumerico r with
      | none => false
      | some v => decide (vmin ≤ v ∧ v ≤ vmax)

/-- Model of Python float(s), which raises ValueError on an unparsable
string; used to state the fail-closed property of the evaluator. -/
def floatDe (s : String) : Except String ℚ :=
  match parseFloat? s with
  | some q => Except.ok q
  | none => Except.error "ValueError"

/-- The body of verificar_conformidade inside its outer try (src/app.py
lines 87-115), with the fallible float() conversions explicit and the two
inner try/except handlers (lines 100-103 and 107-114) translated as
error-handling matches.  Any error not caught by an inner handler would
surface as Except.error. -/
def verificar_conformidade_body (r : Record) : Except String Bool :=
  match r.parametro with
  | none => Except.ok false
  | some parametro =>
    match refLookup parametro with
    | none => Except.ok false
    | some (Regra.ausencia valor) => Except.ok (strForma r.resultado == valor)
    | some (Regra.maximo valor) =>
      match r.resultado_numerico with
      | some v => Except.ok (decide (v ≤ valor))
      | none =>
        match r.resultado with
        | none => Except.ok false
        | some s =>
          match floatDe (substituirVirgula s) with
          | Except.ok v => Except.ok (decide (v ≤ valor))
          | Except.error _ => Except.ok false
    | some (Regra.intervalo vmin vmax) =>
      match r.resultado_numerico with
      | some v => Except.ok (decide (vmin ≤ v ∧ v ≤ vmax))
      | none =>
        match r.resultado with
        | none => Except.ok false
        | some s =>
          match floatDe (substituirVirgula s) with
          | Except.ok v => Except.ok (decide (vmin ≤ v ∧ v ≤ vmax))
          | Except.error _ => Except.ok false

/-- The outer except handler of verificar_conformidade (src/app.py lines
116-119): any escaping error becomes False. -/
def verificar_conformidade_catch (r : Record) : Bool :=
  match verificar_conformidade_body r with
  | Except.ok b => b
  | Except.error _ => false

/-- Model of pandas Series.unique(): distinct values in order of first
appearance, with NaN (`none`) kept as a value like pandas does. -/
def uniqueFirst {α : Type} [BEq α] : List α → List α
  | [] => []
  | a :: l => a :: ((uniqueFirst l).filter (fun x => !(x == a)))

/-- Series.mean() * 100 over the derived conforme column of a frame
(e.g. src/app.py line 132): the fraction of compliant records, as a
percentage.  Written with mkRat (the exact rational count*100/length,
see mean100_eq_div below) so that it evaluates inside the kernel; the
denominator-zero case never arises on the guarded code paths. -/
def mean100 (l : List Record) : ℚ :=
  mkRat ((l.countP verificar_conformidade * 100 : Nat) : Int) l.length

/-- The five parameter names for which named statistics are produced
(src/app.py line 140 and the identical lists at lines 198 and 254). -/
def parametros_lista : List String :=
  ["Escherichia coli", "Coliformes totais", "Turbidez (uT)",
   "Cloro residual livre (mg/L)", "Fluoreto (mg/L)"]

/-- Dict-key normalisation of a parameter name (src/app.py line 144):
lower-case, spaces and slashes to underscores, parentheses removed.
All the replaced patterns are single characters, so the chained
str.replace calls are a single character-wise pass. -/
def paramKey (p : String) : String :=
  String.mk (p.toList.filterMap (fun c =>
    let d := c.toLower
    if d == ' ' then some '_'
    else if d == '(' || d == ')' then none
    else if d == '/' then some '_'
    else some d))

/-- calcular_estatisticas (src/app.py lines 122-171): overall statistics
dict.  Per-parameter entries use 0 (not None) for an empty subset; the
short alias keys copy the long entries via dict.get. -/
def calcular_estatisticas (df : List Record) : Dict :=
  let geral : ℚ := if df.isEmpty then 0 else mean100 df
  let nao : ℚ := if df.isEmpty then 100 else 100 - geral
  let paramStats : Dict := parametros_lista.map (fun p =>
    let sub := df.filter (fun r => optEq r.parametro (some p))
    ("conformidade_" ++ paramKey p,
      V.q (if df.isEmpty then 0 else if sub.isEmpty then 0 else mean100 sub)))
  let base : Dict :=
    [("total_amostras", V.n df.length),
     ("bairros_unicos", V.n (uniqueFirst (df.filterMap (fun r => r.bairro))).length),
     ("conformidade_geral", V.q geral),
     ("nao_conformidade_geral", V.q nao)] ++ paramStats
  base ++
    [("conformidade_ecoli", dget base "conformidade_escherichia_coli" (V.q 0)),
     ("conformidade_coliformes", dget base "conformidade_coliformes_totais" (V.q 0)),
     ("conformidade_turbidez", dget base "conformidade_turbidez_ut" (V.q 0)),
     ("conformidade_cloro", dget base "conformidade_cloro_residual_livre_mg_l" (V.q 0)),
     ("conformidade_fluoreto", dget base "conformidade_fluoreto_mg_l" (V.q 0))]

/-- Per-parameter compliance entry of a group (src/app.py lines 199-210 and
255-265): None when the group has no sample of the parameter, else the
percentage over that subset. -/
def percParam (grp : List Record) (p : String) : V :=
  let sub := grp.filter (fun r => optEq r.parametro (some p))
  if sub.isEmpty then V.null else V.q (mean100 sub)

/-- Dict value of a possibly missing string key. -/
def vOfOptStr (o : Option String) : V :=
  match o with
  | some s => V.s s
  | none => V.null

/-- One neighborhood group dict (src/app.py lines 183-216), for the group
key nome (which pandas unique() may supply as NaN). -/
def dadosBairroFor (df : List Record) (nome : Option String) : Dict :=
  let df_bairro := df.filter (fun r => optEq r.bairro nome)
  let base : Dict :=
    [("bairro", vOfOptStr nome),
     ("total_analises", V.n df_bairro.length),
     ("percentual_conforme", V.q (if df_bairro.isEmpty then 0 else mean100 df_bairro))]
  let d : Dict := base ++ parametros_lista.map (fun p =>
    ("percentual_" ++ paramKey p, percParam df_bairro p))
  d ++
    [("percentual_ecoli", dget d "percentual_escherichia_coli" V.null),
     ("percentual_coliformes", dget d "percentual_coliformes_totais" V.null),
     ("percentual_turbidez", dget d "percentual_turbidez_ut" V.null),
     ("percentual_cloro", dget d "percentual_cloro_residual_livre_mg_l" V.null),
     ("percentual_fluoreto", dget d "percentual_fluoreto_mg_l" V.null)]

/-- obter_dados_bairros (src/app.py lines 174-223): one dict per distinct
bairro value, in order of first appearance. -/
def obter_dados_bairros (df : List Record) : List Dict :=
  if df.isEmpty then []
  else (uniqueFirst (df.map (fun r => r.bairro))).map (dadosBairroFor df)

/-- Localised month names (src/app.py lines 236-237). -/
def nomes_meses : List String :=
  ["Janeiro", "Fevereiro", "Março", "Abril", "Maio", "Junho",
   "Julho", "Agosto", "Setembro", "Outubro", "Novembro", "Dezembro"]

/-- One month group dict (src/app.py lines 240-271), over the frame dfc
whose mes column has already been parsed and NaN-dropped. -/
def dadosMesFor (dfc : List Record) (mes_num : Nat) : Dict :=
  let df_mes := dfc.filter (fun r => optEq r.mes (some (mes_num : ℚ)))
  let base : Dict :=
    [("mes", V.n mes_num),
     ("nome_mes", V.s (nomes_meses.getD (mes_num - 1) "")),
     ("total_amostras", V.n df_mes.length),
     ("percentual_conforme", V.q (if df_mes.isEmpty then 0 else mean100 df_mes))]
  let d : Dict := base ++ parametros_lista.map (fun p =>
    ("percentual_" ++ paramKey p, percParam df_mes p))
  d ++
    [("percentual_ecoli", dget d "percentual_escherichia_coli" V.null),
     ("percentual_coliformes", dget d "percentual_coliformes_totais" V.null),
     ("percentual_turbidez", dget d "percentual_turbidez_ut" V.null),
     ("percentual_cloro", dget d "percentual_cloro_residual_livre_mg_l" V.null),
     ("percentual_fluoreto", dget d "percentual_fluoreto_mg_l" V.null)]

/-- obter_distribuicao_mes (src/app.py lines 226-278): after dropping rows
whose mes is NaN, loop over calendar months 1..12 and emit a dict for each
month that has at least one sample. -/
def obter_distribuicao_mes (df : List Record) : List Dict :=
  if df.isEmpty then []
  else
    let dfc := df.filter (fun r => r.mes.isSome)
    ((List.range' 1 12).filter (fun (n : Nat) =>
        !((dfc.filter (fun r => optEq r.mes (some (n : ℚ)))).isEmpty))).map
      (dadosMesFor dfc)

/-- One collection-point group dict (src/app.py lines 290-302): only the
key, the sample count and the overall percentage are emitted — there is no
per-parameter loop in this aggregator. -/
def dadosPontoFor (df : List Record) (nome : Option String) : Dict :=
  let df_ponto := df.filter (fun r => optEq r.ponto_de_coleta nome)
  [("ponto_de_coleta", vOfOptStr nome),
   ("total_analises", V.n df_ponto.length),
   ("percentual_conforme", V.q (mean100 df_ponto))]

/-- obter_distribuicao_ponto_coleta (src/app.py lines 281-307): one dict per
distinct collection point in order of first appearance, skipping groups
with zero samples (the NaN key group). -/
def obter_distribuicao_ponto_coleta (df : List Record) : List Dict :=
  if df.isEmpty then []
  else ((uniqueFirst (df.map (fun r => r.ponto_de_coleta))).filter (fun k =>
      !((df.filter (fun r => optEq r.ponto_de_coleta k)).isEmpty))).map
    (dadosPontoFor df)

/-- Filter criteria (src/app.py lines 40-56); each value is the raw query
string, absent key = none. -/
structure Filtros where
  ano : Option String := none
  mes : Option String := none
  bairro : Option String := none
  parametro : Option String := none
deriving DecidableEq

/-- One numeric filter step of carregar_dados (src/app.py lines 41-50):
skipped when the key is absent, empty (Python falsiness) or "todos";
otherwise the column is coerced to numeric, NaN rows are dropped and only
exact matches of int(value) are kept.  An unparsable filter value makes
int() raise, the outer except returns the empty frame. -/
def aplicarFiltroNum (get : Record → Option ℚ) (v : Option String)
    (rows : List Record) : List Record :=
  match v with
  | none => rows
  | some s =>
    if s == "" || s == "todos" then rows
    else
      match s.toInt? with
      | none => []
      | some n => rows.filter (fun r => optEq (get r) (some (n : ℚ)))

/-- One string filter step of carregar_dados (src/app.py lines 51-56):
skipped when absent, empty or "todos", else an exact-match filter. -/
def aplicarFiltroStr (get : Record → Option String) (v : Option String)
    (rows : List Record) : List Record :=
  match v with
  | none => rows
  | some s =>
    if s == "" || s == "todos" then rows
    else rows.filter (fun r => optEq (get r) (some s))

/-- carregar_dados (src/app.py lines 35-80) restricted to its filtering
stage: the CSV read and the column synthesis are the out-of-scope loader
mechanics, so the already-loaded rows are the input.  Filters apply in
source order: ano, mes, bairro, parametro. -/
def carregar_dados (rows : List Record) (filtros : Option Filtros) :
    List Record :=
  match filtros with
  | none => rows
  | some f =>
    aplicarFiltroStr (fun r => r.parametro) f.parametro
      (aplicarFiltroStr (fun r => r.bairro) f.bairro
        (aplicarFiltroNum (fun r => r.mes) f.mes
          (aplicarFiltroNum (fun r => r.ano) f.ano rows)))

/-- A filter value that Python treats as "no filter": key absent, empty
string (falsy) or the literal "todos". -/
def filtroInativo (v : Option String) : Prop :=
  v = none ∨ v = some "" ∨ v = some "todos"

/-- calcular_estatisticas with the caller-visible frame made explicit:
the function works on df.copy() (src/app.py line 125), adds the derived
conforme column to that copy only, and hands the caller's frame back
untouched. -/
def calcular_estatisticas_st (df : List Record) : Dict × List Record :=
  (calcular_estatisticas df, df)

/-- obter_dados_bairros with the caller-visible frame made explicit
(copy at src/app.py line 180; the conforme column is added to the copies
only). -/
def obter_dados_bairros_st (df : List Record) : List Dict × List Record :=
  (obter_dados_bairros df, df)

/-- obter_distribuicao_mes with the caller-visible frame made explicit
(copy at src/app.py line 232). -/
def obter_distribuicao_mes_st (df : List Record) : List Dict × List Record :=
  (obter_distribuicao_mes df, df)

/-- obter_distribuicao_ponto_coleta with the caller-visible frame made
explicit (copy at src/app.py line 287). -/
def obter_distribuicao_ponto_coleta_st (df : List Record) :
    List Dict × List Record :=
  (obter_distribuicao_ponto_coleta df, df)

/-- Sum of the sample-count entries of a list of group dicts. -/
def sumTA (key : String) (l : List Dict) : Nat :=
  (l.map (fun d =>
    match List.lookup key d with
    | some (V.n n) => n
    | _ => 0)).sum

/-- The numeric resolution exactly as the specification words it: prefer
numericResult and otherwise parse the comma-normalised result string.
Stated separately from resolveNumerico (the line-by-line translation) so
that the equivalence is part of claim C3. -/
def resolveSpecNum (r : Record) : Option ℚ :=
  (r.resultado_numerico).orElse
    (fun _ => r.resultado.bind (fun s => parseFloat? (substituirVirgula s)))

/-!  General lemmas about the embedding. -/

/-- mean100 is exactly the mean-times-100 formula of the source. -/
theorem mean100_eq_div (l : List Record) :
    mean100 l = ((l.countP verificar_conformidade : Nat) : ℚ) / l.length * 100 := by
  unfold mean100
  rw [Rat.mkRat_eq_divInt, Rat.divInt_eq_div]
  push_cast
  ring

theorem optEq_none_left {α : Type} [BEq α] (b : Option α) :
    optEq (none : Option α) b = false := by
  cases b <;> rfl

theorem optEq_none_right {α : Type} [BEq α] (a : Option α) :
    optEq a (none : Option α) = false := by
  cases a <;> rfl

theorem optEq_some_iff {α : Type} [BEq α] [LawfulBEq α] {a : α} {b : Option α} :
    optEq (some a) b = true ↔ b = some a := by
  cases b with
  | none => simp [optEq]
  | some y =>
    simp only [optEq, beq_iff_eq, Option.some.injEq]
    exact eq_comm

/-- A record value matches at most one group key. -/
theorem optEq_true_unique {α : Type} [BEq α] [LawfulBEq α] {x k j : Option α}
    (h1 : optEq x k = true) (h2 : optEq x j = true) : k = j := by
  cases x with
  | none => rw [optEq_none_left] at h1; cases h1
  | some a =>
    rw [optEq_some_iff] at h1 h2
    rw [h1, h2]

theorem mem_uniqueFirst {α : Type} [BEq α] [LawfulBEq α] {a : α} {l : List α}
    (h : a ∈ l) : a ∈ uniqueFirst l := by
  induction l with
  | nil => cases h
  | cons b t ih =>
    rw [uniqueFirst]
    rcases List.mem_cons.mp h with rfl | ht
    · exact List.mem_cons_self _ _
    · by_cases hab : a = b
      · subst hab; exact List.mem_cons_self _ _
      · exact List.mem_cons_of_mem _ (List.mem_filter.mpr ⟨ih ht, by simp [hab]⟩)

theorem uniqueFirst_pairwise {α : Type} [BEq α] [LawfulBEq α] (l : List α) :
    (uniqueFirst l).Pairwise (fun x y => x ≠ y) := by
  induction l with
  | nil => exact List.Pairwise.nil
  | cons b t ih =>
    rw [uniqueFirst]
    refine List.pairwise_cons.mpr ⟨?_, ih.filter _⟩
    intro y hy
    have hyb : ¬(y = b) := by
      have := (List.mem_filter.mp hy).2
      simpa using this
    exact fun h => hyb h.symm

/-- Counting a disjunction of disjoint predicates splits into a sum. -/
theorem countP_or_disjoint {α : Type} (p q : α → Bool) (l : List α)
    (h : ∀ a ∈ l, p a = true → q a = false) :
    l.countP (fun a => p a || q a) = l.countP p + l.countP q := by
  induction l with
  | nil => simp
  | cons a t ih =>
    have ht : ∀ x ∈ t, p x = true → q x = false :=
      fun x hx => h x (List.mem_cons_of_mem _ hx)
    cases hp : p a with
    | false =>
      cases hq : q a with
      | false => simp [List.countP_cons, hp, hq, ih ht]
      | true =>
        simp [List.countP_cons, hp, hq, ih ht]
        omega
    | true =>
      have hq : q a = false := h a (List.mem_cons_self _ _) hp
      simp [List.countP_cons, hp, hq, ih ht]
      omega

/-- Grouping by a list of pairwise-distinct keys and summing the group
sizes counts exactly the records that match some key, provided a record
matches at most one key. -/
theorem sum_group_lengths {R K : Type} (m : R → K → Bool) (ks : List K)
    (df : List R) (hnd : ks.Pairwise (fun x y => x ≠ y))
    (hru : ∀ r k j, m r k = true → m r j = true → k = j) :
    (ks.map (fun k => df.countP (fun r => m r k))).sum
      = df.countP (fun r => ks.any (fun j => m r j)) := by
  induction ks with
  | nil => simp
  | cons k ks ih =>
    rcases List.pairwise_cons.mp hnd with ⟨hk, hnd2⟩
    have hdisj : ∀ r ∈ df, m r k = true → ks.any (fun j => m r j) = false := by
      intro r _ hmk
      cases hA : ks.any (fun j => m r j) with
      | false => rfl
      | true =>
        rcases List.any_eq_true.mp hA with ⟨j, hj, hmj⟩
        exact absurd (hru r k j hmk hmj) (hk j hj)
    have := countP_or_disjoint (fun r => m r k) (fun r => ks.any (fun j => m r j)) df hdisj
    simp only [List.map_cons, List.sum_cons, ih hnd2, List.any_cons]
    rw [← this]

/-- Dropping zero-valued entries does not change a sum. -/
theorem sum_map_filter_zeros {K : Type} (p : K → Bool) (f : K → Nat)
    (ks : List K) (h : ∀ k ∈ ks, p k = false → f k = 0) :
    ((ks.filter p).map f).sum = (ks.map f).sum := by
  induction ks with
  | nil => rfl
  | cons a t ih =>
    have ht : ∀ k ∈ t, p k = false → f k = 0 :=
      fun k hk => h k (List.mem_cons_of_mem _ hk)
    cases hp : p a with
    | true => simp [List.filter_cons, hp, ih ht]
    | false => simp [List.filter_cons, hp, ih ht, h a (List.mem_cons_self _ _) hp]

/-- Nonemptiness of a filtered list, as any. -/
theorem bang_isEmpty_filter {α : Type} (p : α → Bool) (l : List α) :
    (!(l.filter p).isEmpty) = l.any p := by
  induction l with
  | nil => rfl
  | cons a t ih => cases hp : p a <;> simp [List.filter_cons, hp, ih]

/-!  Claim theorems. -/

/-- In the fixed reference table, every absence rule carries the sentinel
"AUSENTE". -/
theorem refLookup_ausencia {p v : String}
    (h : refLookup p = some (Regra.ausencia v)) : v = "AUSENTE" := by
  unfold refLookup VALORES_REFERENCIA at h
  simp only [List.lookup] at h
  repeat' split at h
  all_goals simp_all

/-- Claim C1: for a record governed by an absence rule, evaluation is true
exactly when the trimmed, uppercased string form of the result equals the
sentinel carried by the rule (which is always "AUSENTE"); a null result
becomes the empty string, compares not-equal, and yields false. -/
theorem c1_absence_sentinel (r : Record) (v : String)
    (h : ruleOf r = some (Regra.ausencia v)) :
    (verificar_conformidade r = true ↔ strForma r.resultado = v)
      ∧ (r.resultado = none → verificar_conformidade r = false) := by
  cases hp : r.parametro with
  | none => simp [ruleOf, hp] at h
  | some p =>
    have hl : refLookup p = some (Regra.ausencia v) := by
      simpa [ruleOf, hp] using h
    have hv : v = "AUSENTE" := refLookup_ausencia hl
    constructor
    · simp [verificar_conformidade, hp, hl]
    · intro hres
      subst hv
      simp [verificar_conformidade, hp, hl, strForma, hres]

/-- Concrete record for the C1 witness: an E. coli sample whose raw result
" ausente " normalises to the sentinel. -/
def recC1 : Record :=
  { parametro := some "Escherichia coli", resultado := some " ausente " }

/-- Witness for C1 at the concrete record recC1. -/
theorem c1_witness :
    ruleOf recC1 = some (Regra.ausencia "AUSENTE")
      ∧ ((verificar_conformidade recC1 = true
            ↔ strForma recC1.resultado = "AUSENTE")
          ∧ (recC1.resultado = none → verificar_conformidade recC1 = false)) :=
  ⟨by decide, c1_absence_sentinel recC1 "AUSENTE" (by decide)⟩

/-- Claim C2: a record whose parameter is missing, empty, or not a key of
the reference table is never compliant. -/
theorem c2_unknown_parametro (r : Record) (h : ruleOf r = none) :
    verificar_conformidade r = false := by
  cases hp : r.parametro with
  | none => simp [verificar_conformidade, hp]
  | some p =>
    have hl : refLookup p = none := by simpa [ruleOf, hp] using h
    simp [verificar_conformidade, hp, hl]

/-- Witness for C2 at a concrete record with the unknown parameter "pH". -/
theorem c2_witness :
    ruleOf { parametro := some "pH" } = none
      ∧ verificar_conformidade { parametro := some "pH" } = false :=
  ⟨by decide, c2_unknown_parametro { parametro := some "pH" } (by decide)⟩

/-- Claim C3: for maximo and intervalo rules, evaluation resolves the
numeric value by preferring resultado_numerico and otherwise parsing the
comma-normalised resultado as a float; an unavailable or unparsable value
yields false, and otherwise the bound test (inclusive on both ends for
intervalo) decides the result.  The parser accepts decimal-comma input:
"1,5" resolves to 3/2. -/
theorem c3_numeric_rules (r : Record) :
    (∀ v : ℚ, ruleOf r = some (Regra.maximo v) →
        verificar_conformidade r
          = (resolveSpecNum r).elim false (fun x => decide (x ≤ v)))
      ∧ (∀ a b : ℚ, ruleOf r = some (Regra.intervalo a b) →
        verificar_conformidade r
          = (resolveSpecNum r).elim false (fun x => decide (a ≤ x ∧ x ≤ b)))
      ∧ parseFloat? (substituirVirgula "1,5") = some (3 / 2 : ℚ) := by
  have hres : resolveSpecNum r = resolveNumerico r := by
    unfold resolveSpecNum resolveNumerico
    cases r.resultado_numerico <;> cases r.resultado <;> simp [Option.orElse]
  refine ⟨?_, ?_, ?_⟩
  · intro v h
    cases hp : r.parametro with
    | none => simp [ruleOf, hp] at h
    | some p =>
      have hl : refLookup p = some (Regra.maximo v) := by
        simpa [ruleOf, hp] using h
      rw [hres]
      simp only [verificar_conformidade, hp, hl]
      cases resolveNumerico r <;> simp
  · intro a b h
    cases hp : r.parametro with
    | none => simp [ruleOf, hp] at h
    | some p =>
      have hl : refLookup p = some (Regra.intervalo a b) := by
        simpa [ruleOf, hp] using h
      rw [hres]
      simp only [verificar_conformidade, hp, hl]
      cases resolveNumerico r <;> simp
  · have h15 : parseFloat? (substituirVirgula "1,5") = some (mkRat 15 10) := by decide
    rw [h15, Rat.mkRat_eq_divInt, Rat.divInt_eq_div]
    norm_num

/-- Concrete record for the C3 witness, maximo branch: a Turbidez sample
whose result "4,5" resolves through the comma-normalising parser. -/
def recC3max : Record :=
  { parametro := some "Turbidez (uT)", resultado := some "4,5" }

/-- Concrete record for the C3 witness, intervalo branch: a Cloro sample
whose resultado_numerico 0.3 is preferred. -/
def recC3int : Record :=
  { parametro := some "Cloro residual livre (mg/L)",
    resultado_numerico := some (mkRat 3 10) }

/-- Witness for C3 at the concrete records recC3max and recC3int. -/
theorem c3_witness :
    ruleOf recC3max = some (Regra.maximo 5)
      ∧ verificar_conformidade recC3max
          = (resolveSpecNum recC3max).elim false (fun x => decide (x ≤ 5))
      ∧ ruleOf recC3int = some (Regra.intervalo (mkRat 2 10) 5)
      ∧ verificar_conformidade recC3int
          = (resolveSpecNum recC3int).elim false
              (fun x => decide (mkRat 2 10 ≤ x ∧ x ≤ 5)) :=
  ⟨by decide,
   (c3_numeric_rules recC3max).1 5 (by decide),
   by decide,
   ((c3_numeric_rules recC3int).2).1 (mkRat 2 10) 5 (by decide)⟩

/-- Claim C4: evaluation is total and fail-closed.  In the explicit-error
model of the body, the inner handlers already catch every float() failure,
so no error ever reaches the outer handler, and the catching wrapper agrees
with the evaluator everywhere; the evaluator is a pure function of the
record and the fixed table by construction of the embedding. -/
theorem c4_fail_closed (r : Record) :
    (verificar_conformidade_body r).isOk = true
      ∧ verificar_conformidade_catch r = verificar_conformidade r := by
  have hb : verificar_conformidade_body r
      = Except.ok (verificar_conformidade r) := by
    unfold verificar_conformidade_body verificar_conformidade resolveNumerico
      floatDe
    repeat' split
    all_goals first
    | rfl
    | simp_all
  constructor
  · rw [hb]; rfl
  · unfold verificar_conformidade_catch
    rw [hb]

/-- Claim C5: the overall statistics dict carries
conformidade_geral = 100 * compliant / total (0 for an empty record set)
and nao_conformidade_geral = 100 - conformidade_geral, which is 100 on an
empty record set. -/
theorem c5_overall_stats (df : List Record) :
    List.lookup "conformidade_geral" (calcular_estatisticas df)
        = some (V.q (if df.length = 0 then 0
            else 100 * ((df.countP verificar_conformidade : Nat) : ℚ) / df.length))
      ∧ List.lookup "nao_conformidade_geral" (calcular_estatisticas df)
        = some (V.q (100 - (if df.length = 0 then 0
            else 100 * ((df.countP verificar_conformidade : Nat) : ℚ) / df.length)))
      ∧ List.lookup "conformidade_geral" (calcular_estatisticas []) = some (V.q 0)
      ∧ List.lookup "nao_conformidade_geral" (calcular_estatisticas [])
        = some (V.q 100) := by
  refine ⟨?_, ?_, by decide, rfl⟩
  · cases df with
    | nil => decide
    | cons a t =>
      have hl : List.lookup "conformidade_geral" (calcular_estatisticas (a :: t))
          = some (V.q (mean100 (a :: t))) := rfl
      rw [hl, mean100_eq_div, if_neg (by simp : ¬((a :: t).length = 0))]
      exact congrArg (fun x => some (V.q x)) (by ring)
  · cases df with
    | nil =>
      have hl : List.lookup "nao_conformidade_geral" (calcular_estatisticas [])
          = some (V.q 100) := rfl
      rw [hl]
      norm_num
    | cons a t =>
      have hl : List.lookup "nao_conformidade_geral"
            (calcular_estatisticas (a :: t))
          = some (V.q (100 - mean100 (a :: t))) := rfl
      rw [hl, mean100_eq_div, if_neg (by simp : ¬((a :: t).length = 0))]
      exact congrArg (fun x => some (V.q x)) (by ring)

/-- Claim C6 (amended): the neighborhood and month aggregators carry, for
each of the five named parameters, a per-parameter compliance entry that is
None exactly when the group has no sample of that parameter; the
collection-point aggregator carries no per-parameter entries (see
c6_counterexample). -/
theorem c6_amended (df grp : List Record) (k : Option String) (n : Nat)
    (p : String) (hp : p ∈ parametros_lista) :
    List.lookup ("percentual_" ++ paramKey p) (dadosBairroFor df k)
        = some (percParam (df.filter (fun r => optEq r.bairro k)) p)
      ∧ List.lookup ("percentual_" ++ paramKey p) (dadosMesFor df n)
        = some (percParam (df.filter (fun r => optEq r.mes (some (n : ℚ)))) p)
      ∧ (percParam grp p = V.null
          ↔ grp.countP (fun r => optEq r.parametro (some p)) = 0) := by
  have hnull : percParam grp p = V.null
      ↔ grp.countP (fun r => optEq r.parametro (some p)) = 0 := by
    rw [List.countP_eq_length_filter]
    by_cases h : grp.filter (fun r => optEq r.parametro (some p)) = []
    · simp [percParam, h]
    · simp [percParam, h]
  simp only [parametros_lista, List.mem_cons, List.not_mem_nil, or_false] at hp
  rcases hp with rfl | rfl | rfl | rfl | rfl <;> exact ⟨rfl, rfl, hnull⟩

/-- Concrete record for C6: a sample with neighborhood, collection point,
month and a compliant Turbidez measurement. -/
def recC6 : Record :=
  { bairro := some "B1", ponto_de_coleta := some "P1", mes := some 2,
    parametro := some "Turbidez (uT)", resultado_numerico := some 4 }

/-- Counterexample to C6 as stated: on the one-record set [recC6] the
collection-point aggregator emits one group, and that group has no
per-parameter compliance entry at all (the key is absent, not None),
while the neighborhood aggregator does carry the entry. -/
theorem c6_counterexample :
    (obter_distribuicao_ponto_coleta [recC6]).length = 1
      ∧ List.lookup "percentual_turbidez_ut"
          ((obter_distribuicao_ponto_coleta [recC6]).headD []) = none
      ∧ (List.lookup "percentual_turbidez_ut"
          ((obter_dados_bairros [recC6]).headD [])).isSome = true :=
  ⟨by decide, by decide, by decide⟩

/-- Witness for C6 at the concrete record set [recC6], group keys "B1" and
month 2, and the parameter "Turbidez (uT)". -/
theorem c6_witness :
    "Turbidez (uT)" ∈ parametros_lista
      ∧ (List.lookup ("percentual_" ++ paramKey "Turbidez (uT)")
            (dadosBairroFor [recC6] (some "B1"))
          = some (percParam ([recC6].filter
              (fun r => optEq r.bairro (some "B1"))) "Turbidez (uT)")
        ∧ List.lookup ("percentual_" ++ paramKey "Turbidez (uT)")
            (dadosMesFor [recC6] 2)
          = some (percParam ([recC6].filter
              (fun r => optEq r.mes (some ((2 : Nat) : ℚ)))) "Turbidez (uT)")
        ∧ (percParam [recC6] "Turbidez (uT)" = V.null
            ↔ [recC6].countP
                (fun r => optEq r.parametro (some "Turbidez (uT)")) = 0)) :=
  ⟨by decide, c6_amended [recC6] [recC6] (some "B1") 2 "Turbidez (uT)" (by decide)⟩

/-- obter_dados_bairros as a map over the first-occurrence keys (the empty
guard coincides with the map on the empty list). -/
theorem obter_dados_bairros_eq (df : List Record) :
    obter_dados_bairros df
      = (uniqueFirst (df.map (fun r => r.bairro))).map (dadosBairroFor df) := by
  cases df <;> rfl

/-- obter_distribuicao_mes as a filtered map over the calendar months. -/
theorem obter_distribuicao_mes_eq (df : List Record) :
    obter_distribuicao_mes df
      = ((List.range' 1 12).filter (fun (n : Nat) =>
          !(((df.filter (fun r => r.mes.isSome)).filter
              (fun r => optEq r.mes (some (n : ℚ)))).isEmpty))).map
        (dadosMesFor (df.filter (fun r => r.mes.isSome))) := by
  cases df <;> rfl

/-- obter_distribuicao_ponto_coleta as a filtered map over the
first-occurrence keys. -/
theorem obter_distribuicao_ponto_coleta_eq (df : List Record) :
    obter_distribuicao_ponto_coleta df
      = ((uniqueFirst (df.map (fun r => r.ponto_de_coleta))).filter (fun k =>
          !((df.filter (fun r => optEq r.ponto_de_coleta k)).isEmpty))).map
        (dadosPontoFor df) := by
  cases df <;> rfl

/-- The sample count stored in a neighborhood group dict. -/
theorem lookup_total_bairro (df : List Record) (k : Option String) :
    List.lookup "total_analises" (dadosBairroFor df k)
      = some (V.n (df.filter (fun r => optEq r.bairro k)).length) := rfl

/-- The sample count stored in a month group dict. -/
theorem lookup_total_mes (dfc : List Record) (n : Nat) :
    List.lookup "total_amostras" (dadosMesFor dfc n)
      = some (V.n (dfc.filter (fun r => optEq r.mes (some (n : ℚ)))).length) := rfl

/-- The sample count stored in a collection-point group dict. -/
theorem lookup_total_ponto (df : List Record) (k : Option String) :
    List.lookup "total_analises" (dadosPontoFor df k)
      = some (V.n (df.filter (fun r => optEq r.ponto_de_coleta k)).length) := rfl

/-- Summing group sizes over the distinct keys of a column counts the
records whose column is non-null. -/
theorem sum_unique_groups (df : List Record) (key : Record → Option String) :
    ((uniqueFirst (df.map key)).map
        (fun k => df.countP (fun r => optEq (key r) k))).sum
      = df.countP (fun r => (key r).isSome) := by
  rw [sum_group_lengths (fun r k => optEq (key r) k) _ _
      (uniqueFirst_pairwise _) (fun r k j h1 h2 => optEq_true_unique h1 h2)]
  refine List.countP_congr (fun r hr => ?_)
  cases hb : key r with
  | none => simp [optEq_none_left]
  | some s =>
    simp only [Option.isSome_some, iff_true]
    refine List.any_eq_true.mpr ⟨some s, ?_, by simp [optEq]⟩
    exact mem_uniqueFirst (List.mem_map.mpr ⟨r, hr, hb⟩)

/-- Claim C7 (amended): for each aggregator, the per-group sample counts
sum to the number of records whose grouping key is present — a non-null
neighborhood or collection point, or a month value equal to one of the
integers 1..12.  Records with a null (or, for months, non-calendar) key
are counted by no group, so the sum can fall short of the total record
count (see c7_counterexample). -/
theorem c7_partition (df : List Record) :
    sumTA "total_analises" (obter_dados_bairros df)
        = df.countP (fun r => r.bairro.isSome)
      ∧ sumTA "total_amostras" (obter_distribuicao_mes df)
        = df.countP (fun r =>
            (List.range' 1 12).any (fun n => optEq r.mes (some (n : ℚ))))
      ∧ sumTA "total_analises" (obter_distribuicao_ponto_coleta df)
        = df.countP (fun r => r.ponto_de_coleta.isSome) := by
  refine ⟨?_, ?_, ?_⟩
  · rw [obter_dados_bairros_eq]
    unfold sumTA
    rw [List.map_map]
    rw [List.map_congr_left (fun k _ => by
      show (match List.lookup "total_analises" (dadosBairroFor df k) with
        | some (V.n n) => n
        | _ => 0) = df.countP (fun r => optEq r.bairro k)
      rw [lookup_total_bairro, List.countP_eq_length_filter])]
    exact sum_unique_groups df (fun r => r.bairro)
  · rw [obter_distribuicao_mes_eq]
    unfold sumTA
    rw [List.map_map]
    rw [List.map_congr_left (fun n _ => by
      show (match List.lookup "total_amostras"
          (dadosMesFor (df.filter (fun r => r.mes.isSome)) n) with
        | some (V.n n) => n
        | _ => 0) = ((df.filter (fun r => r.mes.isSome)).filter
          (fun r => optEq r.mes (some (n : ℚ)))).length
      rw [lookup_total_mes])]
    rw [sum_map_filter_zeros _ _ _ (fun n _ hn => by
      simpa [List.isEmpty_iff] using hn)]
    have hsum := sum_group_lengths
      (fun (r : Record) (n : Nat) => optEq r.mes (some (n : ℚ)))
      (List.range' 1 12) (df.filter (fun r => r.mes.isSome))
      (by decide)
      (fun r n j h1 h2 => by
        have h := optEq_true_unique h1 h2
        exact Nat.cast_injective (Option.some.inj h))
    simp only [← List.countP_eq_length_filter]
    rw [hsum, List.countP_filter]
    refine List.countP_congr (fun r hr => ?_)
    cases hm : r.mes with
    | none => simp [optEq_none_left]
    | some q => simp [hm]
  · rw [obter_distribuicao_ponto_coleta_eq]
    unfold sumTA
    rw [List.map_map]
    rw [List.map_congr_left (fun k _ => by
      show (match List.lookup "total_analises" (dadosPontoFor df k) with
        | some (V.n n) => n
        | _ => 0) = (df.filter (fun r => optEq r.ponto_de_coleta k)).length
      rw [lookup_total_ponto])]
    rw [sum_map_filter_zeros _ _ _ (fun k _ hk => by
      simpa [List.isEmpty_iff] using hk)]
    simp only [← List.countP_eq_length_filter]
    exact sum_unique_groups df (fun r => r.ponto_de_coleta)

/-- A record with no neighborhood, month, or collection point. -/
def recSemChave : Record := {}

/-- Counterexample to C7 as stated: on the one-record set [recSemChave],
whose neighborhood is NaN, the neighborhood aggregator emits one group
(pandas unique() keeps NaN as a key) with zero samples (NaN compares
unequal to NaN), so the group counts sum to 0, not to the record total 1. -/
theorem c7_counterexample :
    ¬(sumTA "total_analises" (obter_dados_bairros [recSemChave])
        = ([recSemChave] : List Record).length) := by decide

/-- An inactive numeric filter leaves the rows unchanged. -/
theorem filtroNum_inativo {get : Record → Option ℚ} {v : Option String}
    (h : filtroInativo v) (rows : List Record) :
    aplicarFiltroNum get v rows = rows := by
  rcases h with rfl | rfl | rfl <;> rfl

/-- An inactive string filter leaves the rows unchanged. -/
theorem filtroStr_inativo {get : Record → Option String} {v : Option String}
    (h : filtroInativo v) (rows : List Record) :
    aplicarFiltroStr get v rows = rows := by
  rcases h with rfl | rfl | rfl <;> rfl

/-- Claim C8: loading with every filter key absent, empty, or "todos"
returns exactly the record set of an unfiltered load. -/
theorem c8_todos_identity (rows : List Record) (f : Filtros)
    (h1 : filtroInativo f.ano) (h2 : filtroInativo f.mes)
    (h3 : filtroInativo f.bairro) (h4 : filtroInativo f.parametro) :
    carregar_dados rows (some f) = carregar_dados rows none := by
  show aplicarFiltroStr (fun r => r.parametro) f.parametro
      (aplicarFiltroStr (fun r => r.bairro) f.bairro
        (aplicarFiltroNum (fun r => r.mes) f.mes
          (aplicarFiltroNum (fun r => r.ano) f.ano rows))) = rows
  rw [filtroNum_inativo h1, filtroNum_inativo h2, filtroStr_inativo h3,
    filtroStr_inativo h4]

/-- Filter criteria with ano explicitly "todos" and bairro the empty
string, the two inactive spellings beyond key absence. -/
def filtrosTodos : Filtros := { ano := some "todos", bairro := some "" }

/-- Concrete record for the C8 witness. -/
def recC8 : Record := { bairro := some "Centro", ano := some 2023 }

/-- Witness for C8 at a concrete row set and concrete inactive filters. -/
theorem c8_witness :
    carregar_dados [recC8] (some filtrosTodos) = carregar_dados [recC8] none :=
  c8_todos_identity [recC8] filtrosTodos (Or.inr (Or.inr rfl)) (Or.inl rfl)
    (Or.inr (Or.inl rfl)) (Or.inl rfl)

/-- The group key stored in a neighborhood group dict. -/
theorem lookup_key_bairro (df : List Record) (k : Option String) :
    List.lookup "bairro" (dadosBairroFor df k) = some (vOfOptStr k) := rfl

/-- The month number stored in a month group dict. -/
theorem lookup_key_mes (dfc : List Record) (n : Nat) :
    List.lookup "mes" (dadosMesFor dfc n) = some (V.n n) := rfl

/-- The group key stored in a collection-point group dict. -/
theorem lookup_key_ponto (df : List Record) (k : Option String) :
    List.lookup "ponto_de_coleta" (dadosPontoFor df k) = some (vOfOptStr k) := rfl

/-- Claim C9: the neighborhood aggregator emits its groups in
first-occurrence order of the key; the collection-point aggregator emits
the nonempty groups in first-occurrence order of the key; the month
aggregator emits the populated months in calendar order 1..12 regardless
of input order. -/
theorem c9_group_order (df : List Record) :
    (obter_dados_bairros df).map (fun d => List.lookup "bairro" d)
        = (uniqueFirst (df.map (fun r => r.bairro))).map
          (fun k => some (vOfOptStr k))
      ∧ (obter_distribuicao_ponto_coleta df).map
            (fun d => List.lookup "ponto_de_coleta" d)
        = ((uniqueFirst (df.map (fun r => r.ponto_de_coleta))).filter (fun k =>
            df.any (fun r => optEq r.ponto_de_coleta k))).map
          (fun k => some (vOfOptStr k))
      ∧ (obter_distribuicao_mes df).map (fun d => List.lookup "mes" d)
        = ((List.range' 1 12).filter (fun (n : Nat) =>
            df.any (fun r => optEq r.mes (some (n : ℚ))))).map
          (fun n => some (V.n n)) := by
  refine ⟨?_, ?_, ?_⟩
  · rw [obter_dados_bairros_eq, List.map_map]
    exact List.map_congr_left (fun k _ => lookup_key_bairro df k)
  · rw [obter_distribuicao_ponto_coleta_eq, List.map_map]
    rw [List.filter_congr (fun k _ => bang_isEmpty_filter
      (fun r => optEq r.ponto_de_coleta k) df)]
    exact List.map_congr_left (fun k _ => lookup_key_ponto df k)
  · rw [obter_distribuicao_mes_eq, List.map_map]
    have hpred : ∀ n ∈ List.range' 1 12,
        (!(((df.filter (fun r => r.mes.isSome)).filter
            (fun r => optEq r.mes (some (n : ℚ)))).isEmpty))
          = df.any (fun r => optEq r.mes (some (n : ℚ))) := by
      intro n _
      rw [bang_isEmpty_filter, List.any_filter]
      have heq : (fun r : Record => r.mes.isSome && optEq r.mes (some (n : ℚ)))
          = fun r => optEq r.mes (some (n : ℚ)) := by
        funext r
        cases hm : r.mes <;> simp [hm, optEq_none_left]
      rw [heq]
    rw [List.filter_congr hpred]
    exact List.map_congr_left (fun n _ =>
      lookup_key_mes (df.filter (fun r => r.mes.isSome)) n)

/-- Claim C10: each aggregator, run with the caller-visible frame made
explicit, hands the caller's frame back unchanged (the derived conforme
column exists only on the internal copy) and returns the same output as
the plain function. -/
theorem c10_frame_preserved (df : List Record) :
    (calcular_estatisticas_st df).2 = df
      ∧ (obter_dados_bairros_st df).2 = df
      ∧ (obter_distribuicao_mes_st df).2 = df
      ∧ (obter_distribuicao_ponto_coleta_st df).2 = df
      ∧ (calcular_estatisticas_st df).1 = calcular_estatisticas df
      ∧ (obter_dados_bairros_st df).1 = obter_dados_bairros df
      ∧ (obter_distribuicao_mes_st df).1 = obter_distribuicao_mes df
      ∧ (obter_distribuicao_ponto_coleta_st df).1
          = obter_distribuicao_ponto_coleta df :=
  ⟨rfl, rfl, rfl, rfl, rfl, rfl, rfl, rfl⟩
